import Mathlib

/-!
Shallow embedding of `src/find-updates.py` (jobs-updater).

The script reads two YAML snapshots (original and updated), computes the
records of the updated snapshot that are new with respect to a uniqueness
field (default `url`), optionally posts each new record to a chat webhook
(Slack), Twitter and Mastodon, and writes `fields`, `matrix` and
`empty_matrix` outputs to the invoking environment files.

Modelling conventions:
  * A YAML record is a list of (field name, value) pairs; Python dict
    membership `key in item` is `(List.lookup key item).isSome`, and
    `item[key]` is the looked-up value (dict keys are unique, so first
    binding suffices).
  * Scalar values are either strings or non-string scalars (dates as parsed
    by the YAML loader); `json.dumps` succeeds on strings and raises on
    date objects, and the string concatenation in `prepare_post` likewise
    raises an uncaught `TypeError` on a non-string value of a requested
    key — these are the two places where the script observes the
    distinction.
  * The external world (environment variables, HTTP responses, whether a
    Twitter / Mastodon SDK call raises) is an oracle structure `World`.
  * Message text printed to stdout and posted to the channels is not
    tracked; which calls are made, in which order, and the run's outputs
    and exit behaviour are.
-/

namespace JobsUpdater

/-- Scalar value of a record field as produced by the YAML loader: either a
string, or a non-string scalar such as a date. `json.dumps` succeeds on the
former and raises `TypeError` on the latter; string concatenation in
`prepare_post` behaves the same way. -/
inductive Value where
  | str : String → Value
  | date : String → Value
deriving DecidableEq, Repr

/-- Python truthiness of a value (`item[args.unique]` used as a condition):
the empty string is falsy, every other value modelled here is truthy. -/
def Value.truthy : Value → Bool
  | .str s => !(s == "")
  | .date _ => true

/-- `json.dumps(v)`: returns the JSON text for a string and fails (raises)
for a date. Escaping of special characters is elided; only success or
failure of serialization is observed by the script. -/
def Value.jsonDumps : Value → Option String
  | .str s => some ("\"" ++ s ++ "\"")
  | .date _ => none

/-- A record: one YAML job entry, a mapping from field names to values. -/
abbrev Record := List (String × Value)

/-- A snapshot: the ordered list of records loaded from one YAML file. -/
abbrev Snapshot := List Record

/-- The `previous` set built from the original snapshot (lines 204-207 of
`find-updates.py`): the uniqueness-field values of the records that have the
field. The Python code builds a `set`; only membership is ever consulted, so
the list of contributed values is a faithful model. -/
def previousSet (unique : String) (original : Snapshot) : List Value :=
  original.filterMap (fun item => List.lookup unique item)

/-- The classification loop over the updated snapshot (lines 210-218):
returns `(new, entries)`. A record with the uniqueness field whose value is
not in `previous` goes to `new`; otherwise, if it has the field and the
value is truthy, it goes to `entries`; records without the field are
skipped. -/
def scanUpdated (unique : String) (previous : List Value) :
    Snapshot → List Record × List Record
  | [] => ([], [])
  | item :: rest =>
    let tl := scanUpdated unique previous rest
    match List.lookup unique item with
    | some v =>
      if v ∉ previous then (item :: tl.1, tl.2)
      else if v.truthy then (tl.1, item :: tl.2)
      else (tl.1, tl.2)
    | none => (tl.1, tl.2)

/-- The condition under which a record of the updated snapshot is classified
as new (line 213): it has the uniqueness field and its value is absent from
`previous`. -/
def isNew (unique : String) (previous : List Value) (item : Record) : Bool :=
  match List.lookup unique item with
  | some v => decide (v ∉ previous)
  | none => false

/-- Command-line configuration of one run (the `update` subcommand's flags,
with `keys` already split on commas). -/
structure Config where
  deploy : Bool
  deployTwitter : Bool
  deployMastodon : Bool
  test : Bool
  unique : String
  keys : List String

/-- The Delta: the list of records the dispatch loop iterates over. With
test mode off this is `new`; with test mode on the script replaces it by
`entries` (line 221-222: `new = entries`). -/
def delta (cfg : Config) (original updated : Snapshot) : List Record :=
  let scanned := scanUpdated cfg.unique (previousSet cfg.unique original) updated
  if cfg.test then scanned.2 else scanned.1

/-- Membership in the `previous` set is exactly "some original record has
this uniqueness-field value". -/
theorem mem_previousSet (unique : String) (original : Snapshot) (v : Value) :
    v ∈ previousSet unique original ↔
      ∃ a ∈ original, List.lookup unique a = some v := by
  simp [previousSet, List.mem_filterMap]

/-- The `new` component of the scan is a filter of the updated snapshot. -/
theorem scanUpdated_fst (unique : String) (previous : List Value) (l : Snapshot) :
    (scanUpdated unique previous l).1 = l.filter (isNew unique previous) := by
  induction l with
  | nil => rfl
  | cons item rest ih =>
    simp only [scanUpdated]
    cases h : List.lookup unique item with
    | none => simp [List.filter, isNew, h, ih]
    | some v =>
      by_cases hv : v ∈ previous
      · by_cases ht : v.truthy <;>
          simp [List.filter, isNew, h, hv, ht, ih]
      · simp [List.filter, isNew, h, hv, ih]

/-- `isNew` spelled out. -/
theorem isNew_iff (unique : String) (previous : List Value) (r : Record) :
    isNew unique previous r = true ↔
      ∃ v, List.lookup unique r = some v ∧ v ∉ previous := by
  unfold isNew
  cases h : List.lookup unique r <;> simp

/-- With test mode off the Delta is the filter of the updated snapshot by
`isNew`. -/
theorem delta_eq_filter (cfg : Config) (original updated : Snapshot)
    (ht : cfg.test = false) :
    delta cfg original updated =
      updated.filter (isNew cfg.unique (previousSet cfg.unique original)) := by
  simp [delta, ht, scanUpdated_fst]

/-- Claim C1: with test mode off, a record is in the Delta iff it occurs in
the updated snapshot, has the uniqueness field, and no record of the
original snapshot has the same value in that field; and the Delta is a
sublist of the updated snapshot (its order is the updated snapshot's
order). -/
theorem C1_delta_membership_and_order (cfg : Config) (original updated : Snapshot)
    (ht : cfg.test = false) :
    (∀ r : Record, r ∈ delta cfg original updated ↔
        r ∈ updated ∧ ∃ v, List.lookup cfg.unique r = some v ∧
          ∀ a ∈ original, List.lookup cfg.unique a ≠ some v)
    ∧ (delta cfg original updated).Sublist updated := by
  rw [delta_eq_filter cfg original updated ht]
  refine ⟨fun r => ?_, List.filter_sublist _⟩
  rw [List.mem_filter, isNew_iff]
  constructor
  · rintro ⟨hmem, v, hv, hnot⟩
    refine ⟨hmem, v, hv, fun a ha hla => hnot ?_⟩
    exact (mem_previousSet cfg.unique original v).mpr ⟨a, ha, hla⟩
  · rintro ⟨hmem, v, hv, hnone⟩
    refine ⟨hmem, v, hv, fun hin => ?_⟩
    obtain ⟨a, ha, hla⟩ := (mem_previousSet cfg.unique original v).mp hin
    exact hnone a ha hla

/-- Witness for C1 at a concrete input: the record with url `b` is new with
respect to an original containing only url `a`. -/
theorem C1_delta_membership_and_order_witness :
    [("url", Value.str "b")] ∈
      delta { deploy := false, deployTwitter := false, deployMastodon := false,
              test := false, unique := "url", keys := ["url"] }
        [[("url", Value.str "a")]]
        [[("url", Value.str "a")], [("url", Value.str "b")]] :=
  ((C1_delta_membership_and_order _ _ _ rfl).1 _).mpr
    ⟨by decide, Value.str "b", rfl, by decide⟩

/-- Claim C2 evaluated on the code: with test mode on, a record of the
updated snapshot whose uniqueness value is genuinely new is NOT in the
Delta, although it has the uniqueness field. The `elif` at line 217 only
collects records whose value is already in `previous` (and truthy), and
line 222 (`new = entries`) then discards the genuinely new records, against
the code's own comments (`Also keep list of all for test`, `Test uses all
entries`) and the spec. -/
theorem C2_testMode_drops_new_record :
    delta { deploy := false, deployTwitter := false, deployMastodon := false,
            test := true, unique := "url", keys := ["url"] }
        [] [[("url", Value.str "x")]] = [] ∧
    List.lookup "url" [("url", Value.str "x")] = some (Value.str "x") := by
  constructor <;> rfl

/-- Claim C10: with test mode off, the `previous` set is built only from the
original snapshot, so every occurrence of a fresh uniqueness value in the
updated snapshot is kept: records sharing a value absent from the original
snapshot are all in the Delta (counted with multiplicity). -/
theorem C10_no_dedup_within_updated (cfg : Config) (original updated : Snapshot)
    (v : Value) (ht : cfg.test = false)
    (habs : ∀ a ∈ original, List.lookup cfg.unique a ≠ some v) :
    (delta cfg original updated).countP
        (fun r => List.lookup cfg.unique r == some v)
      = updated.countP (fun r => List.lookup cfg.unique r == some v) := by
  have hnotin : v ∉ previousSet cfg.unique original := by
    rw [mem_previousSet]
    rintro ⟨a, ha, hla⟩
    exact habs a ha hla
  rw [delta_eq_filter cfg original updated ht, List.countP_filter]
  have hfun : (fun r => (List.lookup cfg.unique r == some v) &&
      isNew cfg.unique (previousSet cfg.unique original) r)
      = (fun r => List.lookup cfg.unique r == some v) := by
    funext r
    cases hl : List.lookup cfg.unique r == some v
    · simp
    · have heq : List.lookup cfg.unique r = some v := by
        simpa using hl
      simp [isNew, heq, hnotin]
  rw [hfun]

/-- Witness for C10: two identical records with a fresh url are both counted
in the Delta. -/
theorem C10_no_dedup_within_updated_witness :
    (delta { deploy := false, deployTwitter := false, deployMastodon := false,
             test := false, unique := "url", keys := ["url"] }
        [] [[("url", Value.str "x")], [("url", Value.str "x")]]).countP
        (fun r => List.lookup "url" r == some (Value.str "x"))
      = [[("url", Value.str "x")], [("url", Value.str "x")]].countP
        (fun r => List.lookup "url" r == some (Value.str "x")) :=
  C10_no_dedup_within_updated
    { deploy := false, deployTwitter := false, deployMastodon := false,
      test := false, unique := "url", keys := ["url"] }
    [] [[("url", Value.str "x")], [("url", Value.str "x")]]
    (Value.str "x") rfl (by simp)

/-- Python truthiness of an environment lookup: `os.environ.get` returns
`None` when the variable is unset, and the script treats the empty string
the same as unset (`if not value`). -/
def envSet : Option String → Bool
  | some s => !(s == "")
  | none => false

/-- The external world of one run: environment variables and the behaviour
of the network endpoints. `chatStatus i` is the HTTP status the Slack
webhook returns for the chat POST of the record at loop index `i`;
`twitterRaises i` / `mastodonRaises i` say whether the SDK call for that
record raises an exception. -/
structure World where
  slackWebhook : Option String
  twitterApiKey : Option String
  twitterApiSecret : Option String
  twitterConsumerKey : Option String
  twitterConsumerSecret : Option String
  mastodonAccessToken : Option String
  mastodonApiBaseUrl : Option String
  chatStatus : Nat → Nat
  twitterRaises : Nat → Bool
  mastodonRaises : Nat → Bool

/-- `get_twitter_client` succeeds iff all four Twitter credentials are set
(lines 122-140); otherwise it calls `sys.exit` with a message. -/
def twitterEnvOk (w : World) : Bool :=
  envSet w.twitterApiKey && envSet w.twitterApiSecret &&
    envSet w.twitterConsumerKey && envSet w.twitterConsumerSecret

/-- `get_mastodon_client` succeeds iff both Mastodon credentials are set
(lines 142-156). -/
def mastodonEnvOk (w : World) : Bool :=
  envSet w.mastodonAccessToken && envSet w.mastodonApiBaseUrl

/-- A fully-provisioned, fully-healthy world used by concrete witnesses:
every credential set, every chat POST answered 200, no SDK call raises. -/
def quietWorld : World :=
  { slackWebhook := some "https://hooks.example/T0/B0",
    twitterApiKey := some "ak", twitterApiSecret := some "as",
    twitterConsumerKey := some "ck", twitterConsumerSecret := some "cs",
    mastodonAccessToken := some "tok",
    mastodonApiBaseUrl := some "https://m.example",
    chatStatus := fun _ => 200,
    twitterRaises := fun _ => false,
    mastodonRaises := fun _ => false }

/-- How the process ends: `sys.exit` with a code (`sys.exit(msg)` exits
with code 1), an uncaught exception (Python prints a traceback and exits
nonzero), or falling off the end of `main` (exit code 0). -/
inductive Outcome where
  | exited : Nat → Outcome
  | uncaught : Outcome
  | finished : Outcome
deriving DecidableEq, Repr

/-- Observable result of one run. The three `...Out` fields are the values
written by `set_env_and_output` for `fields`, `matrix` and `empty_matrix`
(`none` when the run ended before writing them); the call lists record, in
order, the loop indices of the records for which the corresponding network
call was issued; `warnings` records the indices for which the caught-tweet
warning was printed. -/
structure RunResult where
  outcome : Outcome
  fieldsOut : Option (List String)
  matrixOut : Option (List (List (String × String)))
  emptyMatrixOut : Option String
  chatCalls : List Nat
  tweetCalls : List Nat
  tootCalls : List Nat
  warnings : List Nat
deriving DecidableEq, Repr

/-- The JSON-safe copy of a record built at lines 266-271: each field's
value is serialized with `json.dumps`; fields whose value fails to
serialize are dropped (`except: continue`). -/
def filterRecord (entry : Record) : List (String × String) :=
  entry.filterMap (fun kv => (Value.jsonDumps kv.2).map (fun s => (kv.1, s)))

/-- Mutable state accumulated by the dispatch loop. -/
structure LoopState where
  matrix : List (List (String × String))
  chatCalls : List Nat
  tweetCalls : List Nat
  tootCalls : List Nat
  warnings : List Nat
deriving DecidableEq, Repr

/-- How the dispatch loop ends: all records processed, `sys.exit` after a
bad chat response (lines 297-302), or an uncaught Mastodon exception
(line 290 has no `try`). -/
inductive LoopExit where
  | completed : LoopExit
  | aborted : LoopExit
  | uncaughtExc : LoopExit
deriving DecidableEq, Repr

/-- The loop state at run start. -/
def initState : LoopState :=
  { matrix := [], chatCalls := [], tweetCalls := [], tootCalls := [],
    warnings := [] }

/-- `[i, i+1, ..., i+n-1]`: the loop indices of `n` consecutive records
starting at index `i`. -/
def idxFrom (i : Nat) : Nat → List Nat
  | 0 => []
  | n + 1 => i :: idxFrom (i + 1) n

/-- Python `str.capitalize()`: first character upper-cased, the rest
lower-cased. -/
def pyCapitalize (s : String) : String :=
  (s.take 1).toUpper ++ (s.drop 1).toLower

/-- `prepare_post` (lines 158-169): renders the requested keys of one
record, in order; the `url` key's value is emitted raw, every other
present key as `Key: value`; absent keys are skipped. The concatenations
`post + entry[key]` (line 166) and `... + entry[key]` (line 168) raise an
uncaught `TypeError` when the value is not a string, modelled as `none`. -/
def prepare_post (entry : Record) (keys : List String) : Option String :=
  keys.foldl
    (fun post key =>
      match post with
      | none => none
      | some p =>
        match List.lookup key entry with
        | some (Value.str s) =>
          if key == "url" then some (p ++ s ++ "\n")
          else some (p ++ pyCapitalize key ++ ": " ++ s ++ "\n")
        | some (Value.date _) => none
        | none => some p)
    (some "")

/-- Per-record step: appending the JSON-safe copy to the matrix
(line 275). This happens before any dispatch attempt. -/
def stepMatrix (entry : Record) (st : LoopState) : LoopState :=
  { st with matrix := st.matrix ++ [filterRecord entry] }

/-- Per-record step: the Twitter dispatch (lines 279-285). The client is
non-`None` exactly when the deploy flag is set, since the run already
passed the startup credential check. An exception from `create_tweet` is
caught and logged as a warning; the loop continues either way. -/
def stepTwitter (cfg : Config) (w : World) (i : Nat) (st : LoopState) :
    LoopState :=
  if cfg.deployTwitter then
    if w.twitterRaises i then
      { st with tweetCalls := st.tweetCalls ++ [i],
                warnings := st.warnings ++ [i] }
    else { st with tweetCalls := st.tweetCalls ++ [i] }
  else st

/-- Per-record step: the Mastodon call is issued when the deploy flag is
set (lines 288-290). Whether it raises is handled by the caller, because
the call is not wrapped in a `try`. -/
def stepToot (cfg : Config) (i : Nat) (st : LoopState) : LoopState :=
  if cfg.deployMastodon then { st with tootCalls := st.tootCalls ++ [i] }
  else st

/-- The dispatch loop (lines 256-302), over the remaining Delta records,
with `i` the loop index of the first of them. Each iteration first calls
`prepare_post` (line 259): if that raises (a requested key holds a
non-string value), the uncaught `TypeError` kills the process before the
matrix append and before any dispatch for that record. Otherwise the
JSON-safe copy is appended, then Twitter: an exception there is caught and
logged (lines 282-285); a Mastodon exception is not caught and propagates
(line 290); the chat POST is skipped when the deploy flag is off or test
mode is on (lines 293-294), and a status outside {200, 201} is fatal
(lines 297-302). The rendered text itself (icon, printed message) is not
tracked. -/
def processLoop (cfg : Config) (w : World) :
    List Record → Nat → LoopState → LoopExit × LoopState
  | [], _, st => (.completed, st)
  | entry :: rest, i, st =>
    match prepare_post entry cfg.keys with
    | none => (.uncaughtExc, st)
    | some _ =>
      let st2 := stepTwitter cfg w i (stepMatrix entry st)
      if cfg.deployMastodon && w.mastodonRaises i then
        (.uncaughtExc, stepToot cfg i st2)
      else
        let st3 := stepToot cfg i st2
        if !cfg.deploy || cfg.test then
          processLoop cfg w rest (i + 1) st3
        else
          let st4 := { st3 with chatCalls := st3.chatCalls ++ [i] }
          if w.chatStatus i == 200 || w.chatStatus i == 201 then
            processLoop cfg w rest (i + 1) st4
          else
            (.aborted, st4)

/-- Result of a fatal `sys.exit(message)` before the dispatch loop touched
the network or the output files: startup credential failures and the
missing-webhook failure all produce it. -/
def fatalResult : RunResult :=
  { outcome := .exited 1, fieldsOut := none, matrixOut := none,
    emptyMatrixOut := none, chatCalls := [], tweetCalls := [],
    tootCalls := [], warnings := [] }

/-- Result of the empty-Delta short circuit (lines 223-228): empty outputs
and `sys.exit(0)`. -/
def shortCircuitResult : RunResult :=
  { outcome := .exited 0, fieldsOut := some [], matrixOut := some [],
    emptyMatrixOut := some "true", chatCalls := [], tweetCalls := [],
    tootCalls := [], warnings := [] }

/-- How the dispatch loop's exit determines the end of the process
(lines 296-308): normal completion writes the three outputs and falls off
`main` (exit 0); the fatal chat abort is `sys.exit(message)`; an uncaught
Mastodon exception ends the process with a traceback; in the latter two
cases no output is written. -/
def loopOutcome (cfg : Config) (res : LoopExit × LoopState) : RunResult :=
  match res with
  | (.completed, st) =>
    { outcome := .finished, fieldsOut := some cfg.keys,
      matrixOut := some st.matrix, emptyMatrixOut := some "false",
      chatCalls := st.chatCalls, tweetCalls := st.tweetCalls,
      tootCalls := st.tootCalls, warnings := st.warnings }
  | (.aborted, st) =>
    { outcome := .exited 1, fieldsOut := none, matrixOut := none,
      emptyMatrixOut := none, chatCalls := st.chatCalls,
      tweetCalls := st.tweetCalls, tootCalls := st.tootCalls,
      warnings := st.warnings }
  | (.uncaughtExc, st) =>
    { outcome := .uncaught, fieldsOut := none, matrixOut := none,
      emptyMatrixOut := none, chatCalls := st.chatCalls,
      tweetCalls := st.tweetCalls, tootCalls := st.tootCalls,
      warnings := st.warnings }

/-- The whole run of `main` after argument parsing, with the two snapshots
already loaded (the input files exist and parse; file-not-found and parse
errors are upstream of every claim modelled here). Mirrors the order of
`main`: Twitter credential check, Mastodon credential check, diff,
test-mode override, empty-Delta short circuit, webhook check, dispatch
loop, outputs (lines 188-308). -/
def run (cfg : Config) (w : World) (original updated : Snapshot) : RunResult :=
  if cfg.deployTwitter && !twitterEnvOk w then fatalResult
  else if cfg.deployMastodon && !mastodonEnvOk w then fatalResult
  else
    let scanned := scanUpdated cfg.unique (previousSet cfg.unique original) updated
    if !cfg.test && scanned.1.isEmpty then shortCircuitResult
    else
      let newList := if cfg.test then scanned.2 else scanned.1
      if cfg.deploy && !envSet w.slackWebhook then fatalResult
      else loopOutcome cfg (processLoop cfg w newList 0 initState)

@[simp]
theorem stepMatrix_matrix (entry : Record) (st : LoopState) :
    (stepMatrix entry st).matrix = st.matrix ++ [filterRecord entry] := rfl

@[simp]
theorem stepMatrix_chatCalls (entry : Record) (st : LoopState) :
    (stepMatrix entry st).chatCalls = st.chatCalls := rfl

@[simp]
theorem stepMatrix_tweetCalls (entry : Record) (st : LoopState) :
    (stepMatrix entry st).tweetCalls = st.tweetCalls := rfl

@[simp]
theorem stepMatrix_tootCalls (entry : Record) (st : LoopState) :
    (stepMatrix entry st).tootCalls = st.tootCalls := rfl

@[simp]
theorem stepMatrix_warnings (entry : Record) (st : LoopState) :
    (stepMatrix entry st).warnings = st.warnings := rfl

@[simp]
theorem stepTwitter_matrix (cfg : Config) (w : World) (i : Nat) (st : LoopState) :
    (stepTwitter cfg w i st).matrix = st.matrix := by
  cases htw : cfg.deployTwitter <;> cases hr : w.twitterRaises i <;>
    simp [stepTwitter, htw, hr]

@[simp]
theorem stepTwitter_chatCalls (cfg : Config) (w : World) (i : Nat) (st : LoopState) :
    (stepTwitter cfg w i st).chatCalls = st.chatCalls := by
  cases htw : cfg.deployTwitter <;> cases hr : w.twitterRaises i <;>
    simp [stepTwitter, htw, hr]

@[simp]
theorem stepTwitter_tweetCalls (cfg : Config) (w : World) (i : Nat) (st : LoopState) :
    (stepTwitter cfg w i st).tweetCalls
      = st.tweetCalls ++ (if cfg.deployTwitter then [i] else []) := by
  cases htw : cfg.deployTwitter <;> cases hr : w.twitterRaises i <;>
    simp [stepTwitter, htw, hr]

@[simp]
theorem stepTwitter_tootCalls (cfg : Config) (w : World) (i : Nat) (st : LoopState) :
    (stepTwitter cfg w i st).tootCalls = st.tootCalls := by
  cases htw : cfg.deployTwitter <;> cases hr : w.twitterRaises i <;>
    simp [stepTwitter, htw, hr]

@[simp]
theorem stepTwitter_warnings (cfg : Config) (w : World) (i : Nat) (st : LoopState) :
    (stepTwitter cfg w i st).warnings
      = st.warnings
        ++ (if cfg.deployTwitter && w.twitterRaises i then [i] else []) := by
  cases htw : cfg.deployTwitter <;> cases hr : w.twitterRaises i <;>
    simp [stepTwitter, htw, hr]

@[simp]
theorem stepToot_matrix (cfg : Config) (i : Nat) (st : LoopState) :
    (stepToot cfg i st).matrix = st.matrix := by
  cases hdm : cfg.deployMastodon <;> simp [stepToot, hdm]

@[simp]
theorem stepToot_chatCalls (cfg : Config) (i : Nat) (st : LoopState) :
    (stepToot cfg i st).chatCalls = st.chatCalls := by
  cases hdm : cfg.deployMastodon <;> simp [stepToot, hdm]

@[simp]
theorem stepToot_tweetCalls (cfg : Config) (i : Nat) (st : LoopState) :
    (stepToot cfg i st).tweetCalls = st.tweetCalls := by
  cases hdm : cfg.deployMastodon <;> simp [stepToot, hdm]

@[simp]
theorem stepToot_tootCalls (cfg : Config) (i : Nat) (st : LoopState) :
    (stepToot cfg i st).tootCalls
      = st.tootCalls ++ (if cfg.deployMastodon then [i] else []) := by
  cases hdm : cfg.deployMastodon <;> simp [stepToot, hdm]

@[simp]
theorem stepToot_warnings (cfg : Config) (i : Nat) (st : LoopState) :
    (stepToot cfg i st).warnings = st.warnings := by
  cases hdm : cfg.deployMastodon <;> simp [stepToot, hdm]

/-- When the chat dispatch is disabled or the run is a test run, the loop
never touches the chat webhook, whatever else happens. -/
theorem processLoop_chatCalls_skip (cfg : Config) (w : World)
    (h : (!cfg.deploy || cfg.test) = true) :
    ∀ (l : List Record) (i : Nat) (st : LoopState),
      (processLoop cfg w l i st).2.chatCalls = st.chatCalls := by
  intro l
  induction l with
  | nil => intro i st; rfl
  | cons entry rest ih =>
    intro i st
    simp only [processLoop, h, if_true]
    cases hp : prepare_post entry cfg.keys with
    | none => rfl
    | some post =>
      by_cases hm : (cfg.deployMastodon && w.mastodonRaises i) = true
      · simp [hm]
      · simp only [hm, if_false, Bool.false_eq_true]
        rw [ih]
        simp

/-- If the loop processes all records (no fatal chat response, no uncaught
Mastodon exception), the final state appends, for the `l.length` records
starting at index `i`: their JSON-safe copies to the matrix; a chat call
per record when chat dispatch is live (deploy on, test off); a tweet call
per record when Twitter dispatch is on; a toot call per record when
Mastodon dispatch is on; and a warning for each record whose tweet raised. -/
theorem processLoop_completed (cfg : Config) (w : World) :
    ∀ (l : List Record) (i : Nat) (st : LoopState),
      (processLoop cfg w l i st).1 = .completed →
      (processLoop cfg w l i st).2 =
        { matrix := st.matrix ++ l.map filterRecord,
          chatCalls := st.chatCalls
            ++ (if cfg.deploy && !cfg.test then idxFrom i l.length else []),
          tweetCalls := st.tweetCalls
            ++ (if cfg.deployTwitter then idxFrom i l.length else []),
          tootCalls := st.tootCalls
            ++ (if cfg.deployMastodon then idxFrom i l.length else []),
          warnings := st.warnings
            ++ (idxFrom i l.length).filter
                (fun k => cfg.deployTwitter && w.twitterRaises k) } := by
  intro l
  induction l with
  | nil =>
    intro i st _
    simp [processLoop, idxFrom]
  | cons entry rest ih =>
    intro i st hc
    cases hp : prepare_post entry cfg.keys with
    | none =>
      rw [processLoop] at hc
      rw [hp] at hc
      simp at hc
    | some post =>
    by_cases hm : (cfg.deployMastodon && w.mastodonRaises i) = true
    · rw [processLoop] at hc
      rw [hp] at hc
      simp [hm] at hc
    · by_cases hch : (!cfg.deploy || cfg.test) = true
      · have hdep : (cfg.deploy && !cfg.test) = false := by
          cases hd : cfg.deploy <;> cases ht : cfg.test <;> simp_all
        rw [processLoop] at hc ⊢
        rw [hp] at hc ⊢
        simp only [hm, hch, if_true, if_false, Bool.false_eq_true] at hc ⊢
        rw [ih _ _ hc]
        simp only [LoopState.mk.injEq, List.length_cons, idxFrom, hdep,
          if_false, Bool.false_eq_true, List.map_cons, List.filter_cons,
          stepToot_matrix, stepToot_chatCalls, stepToot_tweetCalls,
          stepToot_tootCalls, stepToot_warnings, stepTwitter_matrix,
          stepTwitter_chatCalls, stepTwitter_tweetCalls,
          stepTwitter_tootCalls, stepTwitter_warnings, stepMatrix_matrix,
          stepMatrix_chatCalls, stepMatrix_tweetCalls, stepMatrix_tootCalls,
          stepMatrix_warnings]
        refine ⟨by simp, by simp, ?_, ?_, ?_⟩
        · cases htw : cfg.deployTwitter <;> simp
        · cases hdm : cfg.deployMastodon <;> simp
        · cases hp : (cfg.deployTwitter && w.twitterRaises i) <;> simp [hp]
      · have hdep : (cfg.deploy && !cfg.test) = true := by
          cases hd : cfg.deploy <;> cases ht : cfg.test <;> simp_all
        rw [processLoop] at hc ⊢
        rw [hp] at hc ⊢
        simp only [hm, hch, if_true, if_false, Bool.false_eq_true] at hc ⊢
        by_cases hs : (w.chatStatus i == 200 || w.chatStatus i == 201) = true
        · simp only [hs, if_true] at hc ⊢
          rw [ih _ _ hc]
          simp only [LoopState.mk.injEq, List.length_cons, idxFrom, hdep,
            if_true, List.map_cons, List.filter_cons,
            stepToot_matrix, stepToot_chatCalls, stepToot_tweetCalls,
            stepToot_tootCalls, stepToot_warnings, stepTwitter_matrix,
            stepTwitter_chatCalls, stepTwitter_tweetCalls,
            stepTwitter_tootCalls, stepTwitter_warnings, stepMatrix_matrix,
            stepMatrix_chatCalls, stepMatrix_tweetCalls,
            stepMatrix_tootCalls, stepMatrix_warnings]
          refine ⟨by simp, by simp, ?_, ?_, ?_⟩
          · cases htw : cfg.deployTwitter <;> simp
          · cases hdm : cfg.deployMastodon <;> simp
          · cases hp : (cfg.deployTwitter && w.twitterRaises i) <;> simp [hp]
        · simp [hs] at hc

/-- If chat dispatch is live (deploy on, test off), the first `j` chat
responses are successful, no Mastodon exception interferes up to index `j`,
and the response for the record at offset `j` is a failure, then the loop
aborts there: the chat webhook is called exactly for the records at
offsets `0..j` and for no later record. -/
theorem processLoop_abort (cfg : Config) (w : World)
    (hd : cfg.deploy = true) (ht : cfg.test = false) :
    ∀ (l : List Record) (j i : Nat) (st : LoopState),
      j < l.length →
      (∀ r ∈ l.take (j + 1), prepare_post r cfg.keys ≠ none) →
      (∀ k, k < j →
        (w.chatStatus (i + k) == 200 || w.chatStatus (i + k) == 201) = true) →
      (w.chatStatus (i + j) == 200 || w.chatStatus (i + j) == 201) = false →
      (∀ k, k ≤ j → (cfg.deployMastodon && w.mastodonRaises (i + k)) = false) →
      (processLoop cfg w l i st).1 = .aborted ∧
        (processLoop cfg w l i st).2.chatCalls
          = st.chatCalls ++ idxFrom i (j + 1) := by
  intro l
  induction l with
  | nil =>
    intro j i st hj _ _ _ _
    exact absurd hj (by simp)
  | cons entry rest ih =>
    intro j i st hj hcr hok hbad hmast
    have hm : (cfg.deployMastodon && w.mastodonRaises i) = false := by
      have := hmast 0 (Nat.zero_le j)
      simpa using this
    have hch : (!cfg.deploy || cfg.test) = false := by simp [hd, ht]
    have hcr0 : prepare_post entry cfg.keys ≠ none := by
      apply hcr
      rw [List.take_succ_cons]
      exact List.mem_cons_self entry _
    cases hpp : prepare_post entry cfg.keys with
    | none => exact absurd hpp hcr0
    | some post =>
    rw [processLoop, hpp]
    simp only [hm, hch, if_false, Bool.false_eq_true]
    cases j with
    | zero =>
      have hbad0 : (w.chatStatus i == 200 || w.chatStatus i == 201) = false := by
        simpa using hbad
      simp only [hbad0, if_false, Bool.false_eq_true]
      constructor
      · simp
      · simp [idxFrom]
    | succ j =>
      have hok0 : (w.chatStatus i == 200 || w.chatStatus i == 201) = true := by
        have := hok 0 (Nat.succ_pos j)
        simpa using this
      simp only [hok0, if_true]
      have hrec := ih j (i + 1)
        { stepToot cfg i (stepTwitter cfg w i (stepMatrix entry st)) with
          chatCalls := (stepToot cfg i
            (stepTwitter cfg w i (stepMatrix entry st))).chatCalls ++ [i] }
        (by simpa using Nat.lt_of_succ_lt_succ (Nat.lt_of_lt_of_le hj (Nat.le_refl _)))
        (fun r hr => by
          apply hcr
          rw [List.take_succ_cons]
          exact List.mem_cons_of_mem entry hr)
        (fun k hk => by
          have := hok (k + 1) (Nat.succ_lt_succ hk)
          have harith : i + (k + 1) = i + 1 + k := by omega
          rwa [harith] at this)
        (by
          have harith : i + (j + 1) = i + 1 + j := by omega
          rwa [harith] at hbad)
        (fun k hk => by
          have := hmast (k + 1) (Nat.succ_le_succ hk)
          have harith : i + (k + 1) = i + 1 + k := by omega
          rwa [harith] at this)
      refine ⟨hrec.1, ?_⟩
      rw [hrec.2]
      simp [idxFrom]

@[simp]
theorem setTwitterRaises_mastodonRaises (w : World) (f : Nat → Bool) :
    ({ w with twitterRaises := f }).mastodonRaises = w.mastodonRaises := rfl

@[simp]
theorem setTwitterRaises_chatStatus (w : World) (f : Nat → Bool) :
    ({ w with twitterRaises := f }).chatStatus = w.chatStatus := rfl

@[simp]
theorem setTwitterRaises_slackWebhook (w : World) (f : Nat → Bool) :
    ({ w with twitterRaises := f }).slackWebhook = w.slackWebhook := rfl

@[simp]
theorem setTwitterRaises_twitterEnvOk (w : World) (f : Nat → Bool) :
    twitterEnvOk { w with twitterRaises := f } = twitterEnvOk w := rfl

@[simp]
theorem setTwitterRaises_mastodonEnvOk (w : World) (f : Nat → Bool) :
    mastodonEnvOk { w with twitterRaises := f } = mastodonEnvOk w := rfl

/-- Changing only whether the Twitter calls raise changes neither the
loop's exit nor the matrix nor any of the call lists — only the warnings
can differ. -/
theorem processLoop_twitterRaises_core (cfg : Config) (w : World) (f : Nat → Bool) :
    ∀ (l : List Record) (i : Nat) (st st' : LoopState),
      st.matrix = st'.matrix → st.chatCalls = st'.chatCalls →
      st.tweetCalls = st'.tweetCalls → st.tootCalls = st'.tootCalls →
      (processLoop cfg { w with twitterRaises := f } l i st).1
          = (processLoop cfg w l i st').1
      ∧ (processLoop cfg { w with twitterRaises := f } l i st).2.matrix
          = (processLoop cfg w l i st').2.matrix
      ∧ (processLoop cfg { w with twitterRaises := f } l i st).2.chatCalls
          = (processLoop cfg w l i st').2.chatCalls
      ∧ (processLoop cfg { w with twitterRaises := f } l i st).2.tweetCalls
          = (processLoop cfg w l i st').2.tweetCalls
      ∧ (processLoop cfg { w with twitterRaises := f } l i st).2.tootCalls
          = (processLoop cfg w l i st').2.tootCalls := by
  intro l
  induction l with
  | nil =>
    intro i st st' h1 h2 h3 h4
    exact ⟨rfl, h1, h2, h3, h4⟩
  | cons entry rest ih =>
    intro i st st' h1 h2 h3 h4
    simp only [processLoop, setTwitterRaises_mastodonRaises,
      setTwitterRaises_chatStatus]
    cases hp : prepare_post entry cfg.keys with
    | none => exact ⟨rfl, h1, h2, h3, h4⟩
    | some post =>
    by_cases hm : (cfg.deployMastodon && w.mastodonRaises i) = true
    · simp [hm, h1, h2, h3, h4]
    · simp only [hm, if_false, Bool.false_eq_true]
      by_cases hch : (!cfg.deploy || cfg.test) = true
      · simp only [hch, if_true]
        exact ih _ _ _ (by simp [h1]) (by simp [h2]) (by simp [h3])
          (by simp [h4])
      · simp only [hch, if_false, Bool.false_eq_true]
        by_cases hs : (w.chatStatus i == 200 || w.chatStatus i == 201) = true
        · simp only [hs, if_true]
          exact ih _ _ _ (by simp [h1]) (by simp [h2]) (by simp [h3])
            (by simp [h4])
        · simp only [hs, if_false, Bool.false_eq_true]
          simp [h1, h2, h3, h4]

/-- When all four pre-loop guards pass, the run is the dispatch loop over
the Delta. -/
theorem run_eq_loop (cfg : Config) (w : World) (original updated : Snapshot)
    (h1 : (cfg.deployTwitter && !twitterEnvOk w) = false)
    (h2 : (cfg.deployMastodon && !mastodonEnvOk w) = false)
    (h3 : (!cfg.test
      && (scanUpdated cfg.unique (previousSet cfg.unique original)
            updated).1.isEmpty) = false)
    (h4 : (cfg.deploy && !envSet w.slackWebhook) = false) :
    run cfg w original updated
      = loopOutcome cfg
          (processLoop cfg w (delta cfg original updated) 0 initState) := by
  unfold run delta
  simp [h1, h2, h3, h4]

/-- The Boolean subset condition of the empty-Delta short circuit: every
record of the updated snapshot that has the uniqueness field has a value
already present among the original snapshot's uniqueness values. -/
def fvaluesSubset (unique : String) (original updated : Snapshot) : Bool :=
  updated.all (fun r =>
    match List.lookup unique r with
    | some v => decide (v ∈ previousSet unique original)
    | none => true)

/-- Under the subset condition the scan classifies no record as new. -/
theorem scan_fst_eq_nil_of_subset (unique : String)
    (original updated : Snapshot)
    (h : fvaluesSubset unique original updated = true) :
    (scanUpdated unique (previousSet unique original) updated).1 = [] := by
  rw [scanUpdated_fst, List.filter_eq_nil_iff]
  intro r hr
  have hall := List.all_eq_true.mp h r hr
  unfold isNew
  cases hl : List.lookup unique r with
  | none => simp
  | some v =>
    rw [hl] at hall
    simp only [decide_eq_true_eq] at hall
    simp [hall]

/-- Claim C3: with test mode off and the updated snapshot's uniqueness
values a subset of the original's (and the startup credential checks
passing), the run short-circuits: it writes `fields=[]`, `matrix=[]`,
`empty_matrix=true`, exits with code 0, and makes no dispatch call to any
channel. -/
theorem C3_empty_delta_short_circuit (cfg : Config) (w : World)
    (original updated : Snapshot)
    (ht : cfg.test = false)
    (htw : cfg.deployTwitter = true → twitterEnvOk w = true)
    (hmast : cfg.deployMastodon = true → mastodonEnvOk w = true)
    (hsub : fvaluesSubset cfg.unique original updated = true) :
    (run cfg w original updated).outcome = Outcome.exited 0
    ∧ (run cfg w original updated).fieldsOut = some []
    ∧ (run cfg w original updated).matrixOut = some []
    ∧ (run cfg w original updated).emptyMatrixOut = some "true"
    ∧ (run cfg w original updated).chatCalls = []
    ∧ (run cfg w original updated).tweetCalls = []
    ∧ (run cfg w original updated).tootCalls = [] := by
  have h1 : (cfg.deployTwitter && !twitterEnvOk w) = false := by
    cases hc : cfg.deployTwitter
    · simp
    · simp [htw hc]
  have h2 : (cfg.deployMastodon && !mastodonEnvOk w) = false := by
    cases hc : cfg.deployMastodon
    · simp
    · simp [hmast hc]
  have hempty := scan_fst_eq_nil_of_subset cfg.unique original updated hsub
  have hrun : run cfg w original updated = shortCircuitResult := by
    unfold run
    simp [h1, h2, ht, hempty]
  rw [hrun]
  simp [shortCircuitResult]

/-- Witness for C3: one updated record whose url already occurs in the
original snapshot. -/
theorem C3_empty_delta_short_circuit_witness :
    (run { deploy := true, deployTwitter := false, deployMastodon := false,
           test := false, unique := "url", keys := ["url"] }
         quietWorld
         [[("url", Value.str "x")]]
         [[("url", Value.str "x")], [("title", Value.str "t")]]).outcome
      = Outcome.exited 0
    ∧ (run { deploy := true, deployTwitter := false, deployMastodon := false,
             test := false, unique := "url", keys := ["url"] }
         quietWorld
         [[("url", Value.str "x")]]
         [[("url", Value.str "x")], [("title", Value.str "t")]]).chatCalls
      = [] :=
  ⟨(C3_empty_delta_short_circuit _ _ _ _ rfl (by simp) (by simp)
      (by decide)).1,
   (C3_empty_delta_short_circuit _ _ _ _ rfl (by simp) (by simp)
      (by decide)).2.2.2.2.1⟩

/-- Claim C6: if the chat-dispatch flag is off or test mode is on, the chat
webhook is never invoked, whatever the social flags and the rest of the
world do. -/
theorem C6_chat_never_called (cfg : Config) (w : World)
    (original updated : Snapshot)
    (h : cfg.deploy = false ∨ cfg.test = true) :
    (run cfg w original updated).chatCalls = [] := by
  have hb : (!cfg.deploy || cfg.test) = true := by
    rcases h with h | h <;> simp [h]
  unfold run
  by_cases h1 : (cfg.deployTwitter && !twitterEnvOk w) = true
  · simp [h1, fatalResult]
  · by_cases h2 : (cfg.deployMastodon && !mastodonEnvOk w) = true
    · simp [h1, h2, fatalResult]
    · by_cases h3 : (!cfg.test
        && (scanUpdated cfg.unique (previousSet cfg.unique original)
              updated).1.isEmpty) = true
      · simp [h1, h2, h3, shortCircuitResult]
      · by_cases h4 : (cfg.deploy && !envSet w.slackWebhook) = true
        · simp [h1, h2, h3, h4, fatalResult]
        · simp only [h1, h2, h3, h4, if_false, Bool.false_eq_true]
          rcases hres : processLoop cfg w
              (if cfg.test then
                (scanUpdated cfg.unique (previousSet cfg.unique original)
                  updated).2
               else
                (scanUpdated cfg.unique (previousSet cfg.unique original)
                  updated).1) 0 initState with ⟨ex, stf⟩
          have hskip := processLoop_chatCalls_skip cfg w hb
            (if cfg.test then
              (scanUpdated cfg.unique (previousSet cfg.unique original)
                updated).2
             else
              (scanUpdated cfg.unique (previousSet cfg.unique original)
                updated).1) 0 initState
          rw [hres] at hskip
          cases ex <;> simp_all [loopOutcome, initState]

/-- Witness for C6: chat flag off, one new record, Twitter on; no chat call
is recorded. -/
theorem C6_chat_never_called_witness :
    (run { deploy := false, deployTwitter := true, deployMastodon := false,
           test := false, unique := "url", keys := ["url"] }
         quietWorld [] [[("url", Value.str "x")]]).chatCalls = [] :=
  C6_chat_never_called _ _ _ _ (Or.inl rfl)

/-- Claim C5: with chat dispatch enabled, test mode off, all guards
passing, the records up to offset `j` formatting without a `TypeError`
(so the loop actually reaches their chat POSTs), successful chat
responses before offset `j`, no Mastodon interference up to `j`, and a
failing chat response at offset `j` of the Delta, the run exits with
code 1 and the chat webhook was called exactly for the records at offsets
`0..j` — no later Delta record is dispatched. -/
theorem C5_fatal_chat_abort (cfg : Config) (w : World)
    (original updated : Snapshot) (j : Nat)
    (hd : cfg.deploy = true) (ht : cfg.test = false)
    (htw : cfg.deployTwitter = true → twitterEnvOk w = true)
    (hmenv : cfg.deployMastodon = true → mastodonEnvOk w = true)
    (hweb : envSet w.slackWebhook = true)
    (hj : j < (delta cfg original updated).length)
    (hnc : ∀ r ∈ (delta cfg original updated).take (j + 1),
      prepare_post r cfg.keys ≠ none)
    (hok : ∀ k, k < j →
      (w.chatStatus k == 200 || w.chatStatus k == 201) = true)
    (hbad : (w.chatStatus j == 200 || w.chatStatus j == 201) = false)
    (hmastr : ∀ k, k ≤ j →
      (cfg.deployMastodon && w.mastodonRaises k) = false) :
    (run cfg w original updated).outcome = Outcome.exited 1
    ∧ (run cfg w original updated).chatCalls = idxFrom 0 (j + 1) := by
  have h1 : (cfg.deployTwitter && !twitterEnvOk w) = false := by
    cases hc : cfg.deployTwitter
    · simp
    · simp [htw hc]
  have h2 : (cfg.deployMastodon && !mastodonEnvOk w) = false := by
    cases hc : cfg.deployMastodon
    · simp
    · simp [hmenv hc]
  have hdelta : delta cfg original updated
      = (scanUpdated cfg.unique (previousSet cfg.unique original)
          updated).1 := by
    unfold delta
    simp [ht]
  have hne : (scanUpdated cfg.unique (previousSet cfg.unique original)
      updated).1.isEmpty = false := by
    cases hsc : (scanUpdated cfg.unique (previousSet cfg.unique original)
        updated).1 with
    | nil =>
      rw [hdelta, hsc] at hj
      exact absurd hj (by simp)
    | cons a l => rfl
  have h3 : (!cfg.test
      && (scanUpdated cfg.unique (previousSet cfg.unique original)
            updated).1.isEmpty) = false := by
    simp [ht, hne]
  have h4 : (cfg.deploy && !envSet w.slackWebhook) = false := by
    simp [hd, hweb]
  rw [run_eq_loop cfg w original updated h1 h2 h3 h4]
  have habort := processLoop_abort cfg w hd ht
    (delta cfg original updated) j 0 initState hj hnc
    (fun k hk => by simpa using hok k hk) (by simpa using hbad)
    (fun k hk => by simpa using hmastr k hk)
  rcases hres : processLoop cfg w (delta cfg original updated) 0 initState
    with ⟨ex, stf⟩
  rw [hres] at habort
  have hex : ex = LoopExit.aborted := by simpa using habort.1
  have hcc : stf.chatCalls = idxFrom 0 (j + 1) := by
    simpa [initState] using habort.2
  subst hex
  exact ⟨rfl, by simp [loopOutcome, hcc]⟩

/-- Witness for C5: three new records, the chat webhook answers 200 for the
first and 500 for the second; the run exits 1 having called the webhook
exactly for the first two records. -/
theorem C5_fatal_chat_abort_witness :
    (run { deploy := true, deployTwitter := false, deployMastodon := false,
           test := false, unique := "url", keys := ["url"] }
         { quietWorld with chatStatus := fun k => if k == 1 then 500 else 200 }
         []
         [[("url", Value.str "a")], [("url", Value.str "b")],
          [("url", Value.str "c")]]).outcome = Outcome.exited 1
    ∧ (run { deploy := true, deployTwitter := false, deployMastodon := false,
             test := false, unique := "url", keys := ["url"] }
         { quietWorld with chatStatus := fun k => if k == 1 then 500 else 200 }
         []
         [[("url", Value.str "a")], [("url", Value.str "b")],
          [("url", Value.str "c")]]).chatCalls = idxFrom 0 (1 + 1) :=
  C5_fatal_chat_abort _ _ _ _ 1 rfl rfl (by simp) (by simp) rfl
    (by decide) (by decide) (by decide) (by decide) (by decide)

/-- A run that ends successfully (exit 0 or normal completion) either took
the empty-Delta short circuit, or ran the dispatch loop to completion. -/
theorem run_success_cases (cfg : Config) (w : World)
    (original updated : Snapshot)
    (hs : (run cfg w original updated).outcome = Outcome.exited 0
        ∨ (run cfg w original updated).outcome = Outcome.finished) :
    (run cfg w original updated = shortCircuitResult
      ∧ (!cfg.test
          && (scanUpdated cfg.unique (previousSet cfg.unique original)
                updated).1.isEmpty) = true)
    ∨ ∃ stf : LoopState,
        processLoop cfg w (delta cfg original updated) 0 initState
            = (LoopExit.completed, stf)
        ∧ run cfg w original updated
            = loopOutcome cfg (LoopExit.completed, stf)
        ∧ (!cfg.test
            && (scanUpdated cfg.unique (previousSet cfg.unique original)
                  updated).1.isEmpty) = false := by
  by_cases h1 : (cfg.deployTwitter && !twitterEnvOk w) = true
  · unfold run at hs
    simp [h1, fatalResult] at hs
  · by_cases h2 : (cfg.deployMastodon && !mastodonEnvOk w) = true
    · unfold run at hs
      simp [h1, h2, fatalResult] at hs
    · by_cases h3 : (!cfg.test
        && (scanUpdated cfg.unique (previousSet cfg.unique original)
              updated).1.isEmpty) = true
      · refine Or.inl ⟨?_, h3⟩
        unfold run
        simp [h1, h2, h3]
      · by_cases h4 : (cfg.deploy && !envSet w.slackWebhook) = true
        · unfold run at hs
          simp [h1, h2, h3, h4, fatalResult] at hs
        · have h1' : (cfg.deployTwitter && !twitterEnvOk w) = false := by
            simpa using h1
          have h2' : (cfg.deployMastodon && !mastodonEnvOk w) = false := by
            simpa using h2
          have h3' : (!cfg.test
              && (scanUpdated cfg.unique (previousSet cfg.unique original)
                    updated).1.isEmpty) = false := by
            simpa using h3
          have h4' : (cfg.deploy && !envSet w.slackWebhook) = false := by
            simpa using h4
          have heq := run_eq_loop cfg w original updated h1' h2' h3' h4'
          rw [heq] at hs
          rcases hres : processLoop cfg w (delta cfg original updated) 0
              initState with ⟨ex, stf⟩
          rw [hres] at hs
          cases ex with
          | completed =>
            exact Or.inr ⟨stf, rfl, by rw [heq, hres], h3'⟩
          | aborted =>
            rcases hs with hs | hs <;> simp [loopOutcome] at hs
          | uncaughtExc =>
            rcases hs with hs | hs <;> simp [loopOutcome] at hs

/-- In a record whose keys are pairwise distinct (a Python dict), a key
determines its value. -/
theorem value_eq_of_nodup_keys (r : Record) (hnd : (r.map Prod.fst).Nodup)
    (k : String) (v v' : Value) (h1 : (k, v) ∈ r) (h2 : (k, v') ∈ r) :
    v = v' := by
  induction r with
  | nil => cases h1
  | cons p rest ih =>
    rcases p with ⟨k0, v0⟩
    simp only [List.map_cons, List.nodup_cons] at hnd
    rcases List.mem_cons.mp h1 with hh1 | hh1 <;>
      rcases List.mem_cons.mp h2 with hh2 | hh2
    · injection hh1 with hk1 hv1
      injection hh2 with hk2 hv2
      rw [hv1, hv2]
    · injection hh1 with hk1 hv1
      exact absurd (hk1 ▸ List.mem_map_of_mem Prod.fst hh2) hnd.1
    · injection hh2 with hk2 hv2
      exact absurd (hk2 ▸ List.mem_map_of_mem Prod.fst hh1) hnd.1
    · exact ih hnd.2 hh1 hh2

/-- Claim C9 refuted on the code: a Delta record with an unserializable
(date) field does NOT always appear in the matrix. When that field is
among the requested keys, `prepare_post` (called at line 259, before the
matrix append at line 275) raises an uncaught `TypeError` on the string
concatenation at line 168, the run dies with a traceback, and no matrix
output is written at all. -/
theorem C9_counterexample :
    (run { deploy := false, deployTwitter := false, deployMastodon := false,
           test := false, unique := "url", keys := ["url", "posted"] }
        quietWorld []
        [[("url", Value.str "a"),
          ("posted", Value.date "2024-06-01")]]).outcome = Outcome.uncaught
    ∧ (run { deploy := false, deployTwitter := false,
             deployMastodon := false, test := false, unique := "url",
             keys := ["url", "posted"] }
        quietWorld []
        [[("url", Value.str "a"),
          ("posted", Value.date "2024-06-01")]]).matrixOut = none :=
  ⟨rfl, rfl⟩

/-- Claim C9 as amended: when the run completes normally (which excludes
the `prepare_post` crash on a requested non-string key), the emitted
matrix is the per-record JSON-safe copy of the whole Delta, in order; and
in a record with distinct keys, a field survives into the copy exactly
when its value serializes — unserializable fields are dropped,
serializable ones kept. -/
theorem C9_serialization_resilience (cfg : Config) (w : World)
    (original updated : Snapshot)
    (hfin : (run cfg w original updated).outcome = Outcome.finished) :
    (run cfg w original updated).matrixOut
        = some ((delta cfg original updated).map filterRecord)
    ∧ ∀ r : Record, (r.map Prod.fst).Nodup →
        ∀ k v, (k, v) ∈ r →
          ((∃ s, (k, s) ∈ filterRecord r)
            ↔ (Value.jsonDumps v).isSome = true) := by
  constructor
  · rcases run_success_cases cfg w original updated (Or.inr hfin) with
      ⟨hrun, _⟩ | ⟨stf, hres, hrun, _⟩
    · rw [hrun] at hfin
      simp [shortCircuitResult] at hfin
    · have hst := processLoop_completed cfg w (delta cfg original updated)
        0 initState (by rw [hres])
      rw [hres] at hst
      rw [hrun]
      simp only [loopOutcome, Option.some.injEq]
      rw [show (LoopExit.completed, stf).2 = stf from rfl] at hst
      rw [hst]
      simp [initState]
  · intro r hnd k v hkv
    constructor
    · rintro ⟨s, hs⟩
      rw [filterRecord, List.mem_filterMap] at hs
      obtain ⟨⟨k0, v0⟩, hmem, hf⟩ := hs
      cases hdmp : Value.jsonDumps v0 with
      | none =>
        rw [hdmp] at hf
        cases hf
      | some s0 =>
        rw [hdmp] at hf
        simp only [Option.map_some'] at hf
        injection hf with hpair
        injection hpair with hk hs0
        subst hk
        have hv0 : v0 = v := value_eq_of_nodup_keys r hnd k0 v0 v hmem hkv
        rw [← hv0, hdmp]
        rfl
    · intro hsome
      cases hdmp : Value.jsonDumps v with
      | none =>
        rw [hdmp] at hsome
        cases hsome
      | some s =>
        refine ⟨s, ?_⟩
        rw [filterRecord, List.mem_filterMap]
        exact ⟨(k, v), hkv, by simp [hdmp]⟩

/-- Witness for C9: a record carrying a date field (unserializable) keeps
its two string fields in the matrix and drops the date. -/
theorem C9_serialization_resilience_witness :
    (run { deploy := false, deployTwitter := false, deployMastodon := false,
           test := false, unique := "url", keys := ["title", "url"] }
         quietWorld []
         [[("title", Value.str "Engineer"),
           ("posted", Value.date "2024-01-01"),
           ("url", Value.str "http://x")]]).matrixOut
      = some ((delta { deploy := false, deployTwitter := false,
                       deployMastodon := false, test := false,
                       unique := "url", keys := ["title", "url"] }
            []
            [[("title", Value.str "Engineer"),
              ("posted", Value.date "2024-01-01"),
              ("url", Value.str "http://x")]]).map filterRecord)
    ∧ ((∃ s, ("posted", s) ∈ filterRecord
          [("title", Value.str "Engineer"),
           ("posted", Value.date "2024-01-01"),
           ("url", Value.str "http://x")])
        ↔ (Value.jsonDumps (Value.date "2024-01-01")).isSome = true) :=
  ⟨(C9_serialization_resilience _ quietWorld _ _ (by decide)).1,
   (C9_serialization_resilience
      { deploy := false, deployTwitter := false, deployMastodon := false,
        test := false, unique := "url", keys := ["title", "url"] }
      quietWorld []
      [[("title", Value.str "Engineer"),
        ("posted", Value.date "2024-01-01"),
        ("url", Value.str "http://x")]] (by decide)).2
     [("title", Value.str "Engineer"),
      ("posted", Value.date "2024-01-01"),
      ("url", Value.str "http://x")] (by decide)
     "posted" (Value.date "2024-01-01") (by decide)⟩

/-- Claim C8 refuted on the code: a test-mode run with an empty Delta
terminates successfully with `matrix=[]` yet writes `empty_matrix=false`
(lines 304-306 write `"false"` unconditionally after the loop), so the
flag does not report emptiness of the summary in all modes. -/
theorem C8_counterexample :
    (run { deploy := false, deployTwitter := false, deployMastodon := false,
           test := true, unique := "url", keys := ["url"] }
        quietWorld [] []).outcome = Outcome.finished
    ∧ (run { deploy := false, deployTwitter := false,
             deployMastodon := false, test := true, unique := "url",
             keys := ["url"] }
        quietWorld [] []).matrixOut = some []
    ∧ (run { deploy := false, deployTwitter := false,
             deployMastodon := false, test := true, unique := "url",
             keys := ["url"] }
        quietWorld [] []).emptyMatrixOut = some "false" :=
  ⟨rfl, rfl, rfl⟩

/-- Claim C8 as amended: for every run that terminates successfully with
test mode off, `empty_matrix` is `"true"` iff the emitted matrix is empty
(a successful test-mode run always writes `"false"`, even with an empty
matrix). -/
theorem C8_amended_empty_matrix_iff (cfg : Config) (w : World)
    (original updated : Snapshot)
    (ht : cfg.test = false)
    (hs : (run cfg w original updated).outcome = Outcome.exited 0
        ∨ (run cfg w original updated).outcome = Outcome.finished) :
    ((run cfg w original updated).emptyMatrixOut = some "true"
      ↔ (run cfg w original updated).matrixOut = some []) := by
  rcases run_success_cases cfg w original updated hs with
    ⟨hrun, _⟩ | ⟨stf, hres, hrun, hne⟩
  · rw [hrun]
    simp [shortCircuitResult]
  · rw [hrun]
    have hst := processLoop_completed cfg w (delta cfg original updated)
      0 initState (by rw [hres])
    rw [hres] at hst
    rw [show (LoopExit.completed, stf).2 = stf from rfl] at hst
    have hdelta : delta cfg original updated
        = (scanUpdated cfg.unique (previousSet cfg.unique original)
            updated).1 := by
      unfold delta
      simp [ht]
    have hdne : delta cfg original updated ≠ [] := by
      simp only [ht, Bool.not_false, Bool.true_and] at hne
      rw [hdelta]
      cases hsc : (scanUpdated cfg.unique (previousSet cfg.unique original)
          updated).1 with
      | nil =>
        rw [hsc] at hne
        simp at hne
      | cons a l => simp
    constructor
    · intro hemp
      exfalso
      simp [loopOutcome] at hemp
    · intro hmat
      exfalso
      simp only [loopOutcome] at hmat
      rw [hst] at hmat
      simp [initState, List.map_eq_nil_iff] at hmat
      exact hdne hmat

/-- Witness for C8 as amended: a non-test run over one new record finishes
with a nonempty matrix and `empty_matrix=false`; the equivalence holds. -/
theorem C8_amended_empty_matrix_iff_witness :
    ((run { deploy := false, deployTwitter := false,
            deployMastodon := false, test := false, unique := "url",
            keys := ["url"] }
        quietWorld [] [[("url", Value.str "x")]]).emptyMatrixOut
          = some "true"
      ↔ (run { deploy := false, deployTwitter := false,
               deployMastodon := false, test := false, unique := "url",
               keys := ["url"] }
          quietWorld [] [[("url", Value.str "x")]]).matrixOut = some []) :=
  C8_amended_empty_matrix_iff _ _ _ _ rfl (Or.inr (by decide))

/-- Claim C7 refuted on the code: with the chat flag set, `SLACK_WEBHOOK`
absent, and an empty Delta (test mode off), the run exits 0 through the
short circuit — the missing chat credential is never even checked, so no
fatal startup error occurs. -/
theorem C7_counterexample :
    (run { deploy := true, deployTwitter := false, deployMastodon := false,
           test := false, unique := "url", keys := ["url"] }
        { quietWorld with slackWebhook := none }
        [[("url", Value.str "x")]] [[("url", Value.str "x")]]).outcome
      = Outcome.exited 0 :=
  rfl

/-- Claim C7 as amended: missing Twitter or Mastodon credentials with the
corresponding flag set are fatal at startup, before diffing (the result is
`fatalResult` whatever the snapshots); the chat webhook is checked only
after diffing — when the chat flag is set, the webhook is absent, and the
run does not take the empty-Delta short circuit, it is fatal before any
dispatch. -/
theorem C7_amended_credential_checks (cfg : Config) (w : World)
    (original updated : Snapshot) :
    (cfg.deployTwitter = true → twitterEnvOk w = false →
      run cfg w original updated = fatalResult)
    ∧ (cfg.deployMastodon = true →
        (cfg.deployTwitter = true → twitterEnvOk w = true) →
        mastodonEnvOk w = false →
        run cfg w original updated = fatalResult)
    ∧ (cfg.deploy = true → envSet w.slackWebhook = false →
        (cfg.deployTwitter = true → twitterEnvOk w = true) →
        (cfg.deployMastodon = true → mastodonEnvOk w = true) →
        (cfg.test = true ∨ delta cfg original updated ≠ []) →
        run cfg w original updated = fatalResult) := by
  refine ⟨?_, ?_, ?_⟩
  · intro hdt htwf
    unfold run
    simp [hdt, htwf]
  · intro hdm htw hmf
    have h1 : (cfg.deployTwitter && !twitterEnvOk w) = false := by
      cases hc : cfg.deployTwitter
      · simp
      · simp [htw hc]
    unfold run
    simp [h1, hdm, hmf]
  · intro hd hwebf htw hmenv hor
    have h1 : (cfg.deployTwitter && !twitterEnvOk w) = false := by
      cases hc : cfg.deployTwitter
      · simp
      · simp [htw hc]
    have h2 : (cfg.deployMastodon && !mastodonEnvOk w) = false := by
      cases hc : cfg.deployMastodon
      · simp
      · simp [hmenv hc]
    have h3 : (!cfg.test
        && (scanUpdated cfg.unique (previousSet cfg.unique original)
              updated).1.isEmpty) = false := by
      cases htt : cfg.test
      · rcases hor with hor | hor
        · rw [htt] at hor
          cases hor
        · have hdelta : delta cfg original updated
              = (scanUpdated cfg.unique (previousSet cfg.unique original)
                  updated).1 := by
            unfold delta
            simp [htt]
          rw [hdelta] at hor
          cases hsc : (scanUpdated cfg.unique
              (previousSet cfg.unique original) updated).1 with
          | nil => exact absurd hsc hor
          | cons a l => simp [hsc]
      · simp [htt]
    unfold run
    simp [h1, h2, h3, hd, hwebf]

/-- Witness for C7 as amended, exercising all three conjuncts: a Twitter
run without Twitter credentials is fatal; a Mastodon run without Mastodon
credentials is fatal; a test-mode chat run without `SLACK_WEBHOOK` is
fatal. -/
theorem C7_amended_credential_checks_witness :
    run { deploy := false, deployTwitter := true, deployMastodon := false,
          test := false, unique := "url", keys := ["url"] }
        { quietWorld with twitterApiKey := none } [] [] = fatalResult
    ∧ run { deploy := false, deployTwitter := false, deployMastodon := true,
            test := false, unique := "url", keys := ["url"] }
        { quietWorld with mastodonAccessToken := none } [] [] = fatalResult
    ∧ run { deploy := true, deployTwitter := false, deployMastodon := false,
            test := true, unique := "url", keys := ["url"] }
        { quietWorld with slackWebhook := none } [] [] = fatalResult :=
  ⟨(C7_amended_credential_checks _ _ [] []).1 rfl rfl,
   (C7_amended_credential_checks _ _ [] []).2.1 rfl (by simp) rfl,
   (C7_amended_credential_checks _ _ [] []).2.2 rfl rfl (by simp) (by simp)
     (Or.inl rfl)⟩

/-- Claim C4 refuted on the code: a Mastodon delivery failure is NOT
caught — `mastodon_client.toot` (line 290) has no `try`, so the exception
terminates the run (Python exits nonzero with a traceback), contradicting
"a social-channel failure never terminates the run". -/
theorem C4_counterexample :
    (run { deploy := false, deployTwitter := false, deployMastodon := true,
           test := false, unique := "url", keys := ["url"] }
        { quietWorld with mastodonRaises := fun _ => true }
        [] [[("url", Value.str "x")]]).outcome = Outcome.uncaught :=
  rfl

/-- Claim C4 as amended: only for the Twitter channel is a delivery
failure caught, logged as a warning, and survived. Concretely: whether
Twitter calls raise changes nothing about the run except which warnings
are logged; and in a completed run the warnings are exactly one per Delta
record whose tweet raised (Mastodon failures, by contrast, terminate the
run uncaught). -/
theorem C4_amended_twitter_nonfatal (cfg : Config) (w : World)
    (f : Nat → Bool) (original updated : Snapshot) :
    (run cfg { w with twitterRaises := f } original updated
        = { run cfg w original updated with
            warnings :=
              (run cfg { w with twitterRaises := f } original
                  updated).warnings })
    ∧ ((run cfg w original updated).outcome = Outcome.finished →
        (run cfg w original updated).warnings
          = (idxFrom 0 (delta cfg original updated).length).filter
              (fun k => cfg.deployTwitter && w.twitterRaises k)) := by
  constructor
  · by_cases h1 : (cfg.deployTwitter && !twitterEnvOk w) = true
    · unfold run
      simp [h1]
    · by_cases h2 : (cfg.deployMastodon && !mastodonEnvOk w) = true
      · unfold run
        simp [h1, h2]
      · by_cases h3 : (!cfg.test
          && (scanUpdated cfg.unique (previousSet cfg.unique original)
                updated).1.isEmpty) = true
        · unfold run
          simp [h1, h2, h3]
        · by_cases h4 : (cfg.deploy && !envSet w.slackWebhook) = true
          · unfold run
            simp [h1, h2, h3, h4]
          · have h1' : (cfg.deployTwitter && !twitterEnvOk w) = false := by
              simpa using h1
            have h2' : (cfg.deployMastodon && !mastodonEnvOk w) = false := by
              simpa using h2
            have h3' : (!cfg.test
                && (scanUpdated cfg.unique (previousSet cfg.unique original)
                      updated).1.isEmpty) = false := by
              simpa using h3
            have h4' : (cfg.deploy && !envSet w.slackWebhook) = false := by
              simpa using h4
            rw [run_eq_loop cfg w original updated h1' h2' h3' h4',
              run_eq_loop cfg { w with twitterRaises := f } original updated
                h1' h2' h3' h4']
            have hcore := processLoop_twitterRaises_core cfg w f
              (delta cfg original updated) 0 initState initState
              rfl rfl rfl rfl
            rcases hres : processLoop cfg w (delta cfg original updated) 0
                initState with ⟨ex, st⟩
            rcases hres2 : processLoop cfg { w with twitterRaises := f }
                (delta cfg original updated) 0 initState with ⟨ex2, st2⟩
            rw [hres, hres2] at hcore
            obtain ⟨hex, hm, hc, htw2, hto⟩ := hcore
            have hexx : ex2 = ex := by simpa using hex
            subst hexx
            have hm' : st2.matrix = st.matrix := by simpa using hm
            have hc' : st2.chatCalls = st.chatCalls := by simpa using hc
            have htw' : st2.tweetCalls = st.tweetCalls := by simpa using htw2
            have hto' : st2.tootCalls = st.tootCalls := by simpa using hto
            cases ex2 <;>
              simp [loopOutcome, RunResult.mk.injEq, hm', hc', htw', hto']
  · intro hfin
    rcases run_success_cases cfg w original updated (Or.inr hfin) with
      ⟨hrun, _⟩ | ⟨stf, hres, hrun, _⟩
    · rw [hrun] at hfin
      simp [shortCircuitResult] at hfin
    · rw [hrun]
      have hst := processLoop_completed cfg w (delta cfg original updated)
        0 initState (by rw [hres])
      rw [hres] at hst
      rw [show (LoopExit.completed, stf).2 = stf from rfl] at hst
      simp only [loopOutcome]
      rw [hst]
      simp [initState]

/-- A configuration with only Twitter dispatch enabled, used for the
Twitter-resilience witness. -/
def twitterOnlyCfg : Config :=
  { deploy := false, deployTwitter := true, deployMastodon := false,
    test := false, unique := "url", keys := ["url"] }

/-- `quietWorld` except that every tweet raises. -/
def tweetFailWorld : World :=
  { quietWorld with twitterRaises := fun _ => true }

/-- Witness for C4 as amended: one new record, Twitter dispatch on; making
every tweet raise changes only the warnings, and the healthy run logs no
warning. -/
theorem C4_amended_twitter_nonfatal_witness :
    (run twitterOnlyCfg tweetFailWorld [] [[("url", Value.str "x")]]
      = { run twitterOnlyCfg quietWorld [] [[("url", Value.str "x")]] with
          warnings :=
            (run twitterOnlyCfg tweetFailWorld []
                [[("url", Value.str "x")]]).warnings })
    ∧ (run twitterOnlyCfg quietWorld [] [[("url", Value.str "x")]]).warnings
        = (idxFrom 0
            (delta twitterOnlyCfg [] [[("url", Value.str "x")]]).length).filter
            (fun k => twitterOnlyCfg.deployTwitter
              && quietWorld.twitterRaises k) :=
  ⟨(C4_amended_twitter_nonfatal twitterOnlyCfg quietWorld (fun _ => true)
      [] [[("url", Value.str "x")]]).1,
   (C4_amended_twitter_nonfatal twitterOnlyCfg quietWorld (fun _ => true)
      [] [[("url", Value.str "x")]]).2 (by decide)⟩

end JobsUpdater
